import Mathlib

/-!
Verification of the request lifecycle in src/api/convert.py (Flask handler
convert_pdf). The Python module is shallowly embedded: the handler becomes a
pure function from an environment (the converter oracle and the behaviour of
the two unlink calls in the cleanup block) and a request to an outcome
recording the HTTP response, which temporary files were created, which remain
on disk at return, how often the converter ran, and whether a cleanup error
was logged. String lowercasing and filename sanitisation are modelled on the
ASCII fragment, which is where all the constants of the program live.
-/

namespace PdfToWord

/-- MAX_FILE_SIZE = 10 * 1024 * 1024 from convert.py. -/
def MAX_FILE_SIZE : Nat := 10 * 1024 * 1024

/-- ALLOWED_EXTENSIONS = set containing only pdf. -/
def ALLOWED_EXTENSIONS : List String := ["pdf"]

/-- Characters after the last occurrence of sep, none when sep is absent.
Mirrors the Python expression rsplit applied with the separator and maxcount
one, taking the second piece. -/
def afterLast (sep : Char) : List Char → Option (List Char)
  | [] => none
  | c :: cs =>
    match afterLast sep cs with
    | some r => some r
    | none => if c = sep then some cs else none

/-- ASCII model of Python str.lower, applied characterwise. -/
def listToLower (l : List Char) : List Char := l.map Char.toLower

/-- allowed_file from convert.py: the filename contains a dot and the piece
after the last dot, lowercased, is in ALLOWED_EXTENSIONS. -/
def allowed_file (filename : String) : Bool :=
  filename.data.contains '.' &&
    (match afterLast '.' filename.data with
     | some ext => ALLOWED_EXTENSIONS.contains (String.mk (listToLower ext))
     | none => false)

/-- ASCII whitespace recognised by Python str.split with no arguments. -/
def isPySpace (c : Char) : Bool :=
  c = ' ' || c = Char.ofNat 9 || c = Char.ofNat 10 || c = Char.ofNat 13 ||
  c = Char.ofNat 11 || c = Char.ofNat 12 ||
  c = Char.ofNat 28 || c = Char.ofNat 29 || c = Char.ofNat 30 || c = Char.ofNat 31

/-- Python str.split with no arguments: split on whitespace runs, dropping
empty pieces. The second argument accumulates the current word reversed. -/
def pySplit : List Char → List Char → List (List Char)
  | [], acc => if acc = [] then [] else [acc.reverse]
  | c :: cs, acc =>
    if isPySpace c then
      (if acc = [] then pySplit cs [] else acc.reverse :: pySplit cs [])
    else pySplit cs (c :: acc)

/-- Characters kept by the werkzeug regex stripping everything outside
A-Z, a-z, 0-9, underscore, dot and hyphen. -/
def isSafeChar (c : Char) : Bool :=
  (('A' ≤ c) && (c ≤ 'Z')) || (('a' ≤ c) && (c ≤ 'z')) ||
  (('0' ≤ c) && (c ≤ '9')) || c = '_' || c = '.' || c = '-'

/-- A character removed by the final strip of dots and underscores. -/
def isStripChar (c : Char) : Bool := c = '.' || c = '_'

/-- Python str.strip with the two characters dot and underscore: remove them
from both ends. -/
def stripEnds (l : List Char) : List Char :=
  ((l.dropWhile isStripChar).reverse.dropWhile isStripChar).reverse

/-- werkzeug.utils.secure_filename on a posix host, modelled on the ASCII
fragment: the NFKD-normalise-then-encode-ascii-ignore step is modelled as
dropping non-ASCII characters (it is the identity on ASCII input); then the
path separator becomes a space, whitespace runs are joined with underscores,
unsafe characters are stripped, and leading and trailing dots and underscores
are removed. -/
def secure_filename (fn : String) : String :=
  let ascii := fn.data.filter (fun c => c.toNat < 128)
  let replaced := ascii.map (fun c => if c = '/' then ' ' else c)
  let joined := List.intercalate ['_'] (pySplit replaced [])
  String.mk (stripEnds (joined.filter isSafeChar))

/-- Index of the last occurrence of a character, none when absent. -/
def lastIndexOf (c : Char) : List Char → Option Nat
  | [] => none
  | x :: xs =>
    match lastIndexOf c xs with
    | some i => some (i + 1)
    | none => if x = c then some 0 else none

/-- os.path.splitext on posix: split at the last dot provided it comes after
the last path separator and some character strictly between the separator and
that dot is not itself a dot (so purely leading dots never start an
extension). -/
def splitext (p : String) : String × String :=
  let l := p.data
  let sepIndex : Int := match lastIndexOf '/' l with | some i => (i : Int) | none => -1
  match lastIndexOf '.' l with
  | none => (p, "")
  | some dotIndex =>
    if sepIndex < (dotIndex : Int) then
      if (List.range dotIndex).any
          (fun i => decide ((sepIndex + 1).toNat ≤ i) && (l.get? i != some '.')) then
        (String.mk (l.take dotIndex), String.mk (l.drop dotIndex))
      else (p, "")
    else (p, "")

/-- An uploaded file: its claimed filename and its bytes. The size the
handler measures by seeking to the end of the stream and back is the length
of the content. -/
structure Upload where
  filename : String
  content : List Nat
deriving DecidableEq

/-- The two HTTP methods the route accepts. -/
inductive Method where
  | POST
  | OPTIONS
deriving DecidableEq

/-- A request: its method and the multipart file fields. -/
structure Request where
  method : Method
  files : List (String × Upload)
deriving DecidableEq

/-- Result of the external pdf2docx converter: the bytes it writes to the
docx path, or the message of the exception it raised. -/
inductive ConvResult where
  | ok (docxBytes : List Nat)
  | error (msg : String)
deriving DecidableEq

/-- Environment of one request: the converter oracle, and whether each of the
two unlink calls in the cleanup block raises. -/
structure Env where
  converter : List Nat → ConvResult
  unlinkPdfFails : Bool
  unlinkDocxFails : Bool

/-- JSON values appearing in the handler responses. -/
inductive JsonVal where
  | str (s : String)
  | bool (b : Bool)
deriving DecidableEq

/-- A response body: a JSON object, or a file attachment as produced by
send_file with as_attachment, download_name and mimetype. -/
inductive Body where
  | json (fields : List (String × JsonVal))
  | fileAttachment (bytes : List Nat) (downloadName : String) (mimetype : String)
deriving DecidableEq

/-- An HTTP response: status code, explicitly added headers, body. -/
structure HttpResponse where
  status : Nat
  headers : List (String × String)
  body : Body
deriving DecidableEq

/-- Which of the two temporary files of the request exist on disk. -/
structure FsState where
  pdfExists : Bool
  docxExists : Bool
deriving DecidableEq

/-- Observable outcome of one call of the handler. -/
structure Outcome where
  response : HttpResponse
  pdfCreated : Bool
  docxCreated : Bool
  fs : FsState
  converterCalls : Nat
  cleanupErrorLogged : Bool
deriving DecidableEq

/-- A jsonify error response: status code plus success false and the
message. -/
def errResp (status : Nat) (msg : String) : HttpResponse :=
  { status := status
    headers := []
    body := Body.json [("success", JsonVal.bool false), ("error", JsonVal.str msg)] }

/-- The OPTIONS branch response: jsonify status ok with the three CORS
headers added. -/
def optionsResponse : HttpResponse :=
  { status := 200
    headers := [("Access-Control-Allow-Origin", "*"),
                ("Access-Control-Allow-Headers", "Content-Type"),
                ("Access-Control-Allow-Methods", "POST")]
    body := Body.json [("status", JsonVal.str "ok")] }

/-- Mimetype passed to send_file. -/
def mimetypeDocx : String :=
  "application/vnd.openxmlformats-officedocument.wordprocessingml.document"

/-- Outcome of a branch that returns before any temporary file is created:
no file staged, none remaining, converter never called. -/
def plainOutcome (resp : HttpResponse) : Outcome :=
  { response := resp
    pdfCreated := false
    docxCreated := false
    fs := { pdfExists := false, docxExists := false }
    converterCalls := 0
    cleanupErrorLogged := false }

/-- The cleanup block of convert.py: under one exception handler, unlink the
pdf file if it exists, then unlink the docx file if it exists; a raised
unlink error is caught and logged, and because both unlinks sit under the
same handler, a failing pdf unlink also skips the docx unlink. Returns the
filesystem state afterwards and whether a cleanup error was logged. -/
def runCleanup (env : Env) (fs : FsState) : FsState × Bool :=
  if fs.pdfExists then
    if env.unlinkPdfFails then (fs, true)
    else
      if fs.docxExists then
        if env.unlinkDocxFails then ({ pdfExists := false, docxExists := true }, true)
        else ({ pdfExists := false, docxExists := false }, false)
      else ({ pdfExists := false, docxExists := false }, false)
  else
    if fs.docxExists then
      if env.unlinkDocxFails then (fs, true)
      else ({ pdfExists := false, docxExists := false }, false)
    else (fs, false)

/-- The Flask view convert_pdf from src/api/convert.py: OPTIONS preflight,
then the four validations in source order, then staging of the two temporary
files, conversion, and the try-finally cleanup; a converter exception reaches
the outer handler and becomes the 500 response after the finally block ran. -/
def convert_pdf (env : Env) (req : Request) : Outcome :=
  match req.method with
  | Method.OPTIONS => plainOutcome optionsResponse
  | Method.POST =>
    match req.files.lookup ("file") with
    | none => plainOutcome (errResp 400 "No file uploaded")
    | some file =>
      if file.filename = "" then plainOutcome (errResp 400 "No file selected")
      else if !(allowed_file file.filename) then
        plainOutcome (errResp 400 "Only PDF files are allowed")
      else
        let file_size := file.content.length
        if file_size > MAX_FILE_SIZE then
          plainOutcome (errResp 400 "File size exceeds 10MB limit")
        else
          let original_filename := secure_filename file.filename
          let base_name := (splitext original_filename).1
          match env.converter file.content with
          | ConvResult.ok docxBytes =>
            let cleaned := runCleanup env { pdfExists := true, docxExists := true }
            { response :=
                { status := 200
                  headers := [("Access-Control-Allow-Origin", "*")]
                  body := Body.fileAttachment docxBytes (base_name ++ ".docx") mimetypeDocx }
              pdfCreated := true
              docxCreated := true
              fs := cleaned.1
              converterCalls := 1
              cleanupErrorLogged := cleaned.2 }
          | ConvResult.error msg =>
            let cleaned := runCleanup env { pdfExists := true, docxExists := true }
            { response := errResp 500 ("Conversion failed: " ++ msg)
              pdfCreated := true
              docxCreated := true
              fs := cleaned.1
              converterCalls := 1
              cleanupErrorLogged := cleaned.2 }

/-- The route decorator of convert.py registers this path. -/
def routePath : String := "/api/convert"

/-- The methods the route decorator accepts. -/
def routeMethods : List String := ["POST", "OPTIONS"]

/-! ### Spec-side definition for the extension-check refinement claim -/

/-- The check as the spec words it: the substring after the last dot,
lowercased, equals pdf; a dotless filename has no such substring and fails. -/
def specExtensionCheck (fn : String) : Bool :=
  match afterLast '.' fn.data with
  | some ext => String.mk (listToLower ext) == "pdf"
  | none => false

/-! ### Concrete inputs used by witnesses -/

/-- Environment whose converter succeeds with fixed bytes and whose unlinks
succeed. -/
def envOk : Env :=
  { converter := fun _ => ConvResult.ok [7, 7]
    unlinkPdfFails := false
    unlinkDocxFails := false }

/-- Environment whose converter raises. -/
def envErr : Env :=
  { converter := fun _ => ConvResult.error ("boom")
    unlinkPdfFails := false
    unlinkDocxFails := false }

/-- Environment in which the pdf unlink raises. -/
def envUnlinkFail : Env :=
  { converter := fun _ => ConvResult.ok [7, 7]
    unlinkPdfFails := true
    unlinkDocxFails := false }

/-- A small valid upload. -/
def uploadSmall : Upload := { filename := "doc.pdf", content := [1, 2, 3] }

/-- A valid POST request carrying the small upload. -/
def reqSmall : Request := { method := Method.POST, files := [("file", uploadSmall)] }

/-- The upload of the worked example in the spec. -/
def uploadReport : Upload := { filename := "Report.PDF", content := [9] }

/-! ### Helper lemmas -/

theorem contains_eq_afterLast_isSome (c : Char) (l : List Char) :
    l.contains c = (afterLast c l).isSome := by
  induction l with
  | nil => rfl
  | cons x xs ih =>
    show (c == x || xs.contains c) = _
    unfold afterLast
    cases h : afterLast c xs with
    | some r =>
      rw [h] at ih
      have hmem : c ∈ xs := by simpa using ih
      simp [hmem]
    | none =>
      rw [h] at ih
      have hnmem : c ∉ xs := by simpa using ih
      by_cases hx : x = c
      · simp [hx]
      · have hne : ¬ c = x := fun he => hx he.symm
        simp [hne, hnmem, hx]

theorem allowed_file_eq_spec (fn : String) : allowed_file fn = specExtensionCheck fn := by
  unfold allowed_file specExtensionCheck
  rw [contains_eq_afterLast_isSome]
  cases h : afterLast '.' fn.data with
  | none => simp
  | some ext =>
    by_cases hpq : ({ data := listToLower ext } : String) = "pdf" <;>
      simp [ALLOWED_EXTENSIONS, List.contains_cons, hpq]

theorem allowed_file_false_of_no_dot (fn : String)
    (h : fn.data.contains '.' = false) : allowed_file fn = false := by
  unfold allowed_file
  rw [h]
  simp

theorem runCleanup_ok (env : Env) (hp : env.unlinkPdfFails = false)
    (hd : env.unlinkDocxFails = false) :
    runCleanup env { pdfExists := true, docxExists := true } =
      ({ pdfExists := false, docxExists := false }, false) := by
  simp [runCleanup, hp, hd]

theorem convert_pdf_options (env : Env) (files : List (String × Upload)) :
    convert_pdf env { method := Method.OPTIONS, files := files } =
      plainOutcome optionsResponse := rfl

theorem convert_pdf_noFile (env : Env) (files : List (String × Upload))
    (h : files.lookup ("file") = none) :
    convert_pdf env { method := Method.POST, files := files } =
      plainOutcome (errResp 400 ("No file uploaded")) := by
  simp [convert_pdf, h]

theorem convert_pdf_emptyName (env : Env) (files : List (String × Upload)) (f : Upload)
    (h1 : files.lookup ("file") = some f) (h2 : f.filename = "") :
    convert_pdf env { method := Method.POST, files := files } =
      plainOutcome (errResp 400 ("No file selected")) := by
  simp [convert_pdf, h1, h2]

theorem convert_pdf_badExt (env : Env) (files : List (String × Upload)) (f : Upload)
    (h1 : files.lookup ("file") = some f) (h2 : ¬ f.filename = "")
    (h3 : allowed_file f.filename = false) :
    convert_pdf env { method := Method.POST, files := files } =
      plainOutcome (errResp 400 ("Only PDF files are allowed")) := by
  simp [convert_pdf, h1, h2, h3]

theorem convert_pdf_tooLarge (env : Env) (files : List (String × Upload)) (f : Upload)
    (h1 : files.lookup ("file") = some f) (h2 : ¬ f.filename = "")
    (h3 : allowed_file f.filename = true) (h4 : f.content.length > MAX_FILE_SIZE) :
    convert_pdf env { method := Method.POST, files := files } =
      plainOutcome (errResp 400 ("File size exceeds 10MB limit")) := by
  simp [convert_pdf, h1, h2, h3, h4]

theorem convert_pdf_convOk (env : Env) (files : List (String × Upload)) (f : Upload)
    (bs : List Nat)
    (h1 : files.lookup ("file") = some f) (h2 : ¬ f.filename = "")
    (h3 : allowed_file f.filename = true) (h4 : ¬ f.content.length > MAX_FILE_SIZE)
    (h5 : env.converter f.content = ConvResult.ok bs) :
    convert_pdf env { method := Method.POST, files := files } =
      { response :=
          { status := 200
            headers := [("Access-Control-Allow-Origin", "*")]
            body := Body.fileAttachment bs
              ((splitext (secure_filename f.filename)).1 ++ ".docx") mimetypeDocx }
        pdfCreated := true
        docxCreated := true
        fs := (runCleanup env { pdfExists := true, docxExists := true }).1
        converterCalls := 1
        cleanupErrorLogged := (runCleanup env { pdfExists := true, docxExists := true }).2 } := by
  simp [convert_pdf, h1, h2, h3, h4, h5]

theorem convert_pdf_convError (env : Env) (files : List (String × Upload)) (f : Upload)
    (msg : String)
    (h1 : files.lookup ("file") = some f) (h2 : ¬ f.filename = "")
    (h3 : allowed_file f.filename = true) (h4 : ¬ f.content.length > MAX_FILE_SIZE)
    (h5 : env.converter f.content = ConvResult.error msg) :
    convert_pdf env { method := Method.POST, files := files } =
      { response := errResp 500 ("Conversion failed: " ++ msg)
        pdfCreated := true
        docxCreated := true
        fs := (runCleanup env { pdfExists := true, docxExists := true }).1
        converterCalls := 1
        cleanupErrorLogged := (runCleanup env { pdfExists := true, docxExists := true }).2 } := by
  simp [convert_pdf, h1, h2, h3, h4, h5]

theorem fs_clean (env : Env) (req : Request) (hp : env.unlinkPdfFails = false)
    (hd : env.unlinkDocxFails = false) :
    (convert_pdf env req).fs = { pdfExists := false, docxExists := false } := by
  rcases req with ⟨m, files⟩
  cases m with
  | OPTIONS => rfl
  | POST =>
    cases hL : files.lookup ("file") with
    | none => rw [convert_pdf_noFile env files hL]; rfl
    | some f =>
      by_cases h2 : f.filename = ""
      · rw [convert_pdf_emptyName env files f hL h2]; rfl
      · cases h3 : allowed_file f.filename with
        | false => rw [convert_pdf_badExt env files f hL h2 h3]; rfl
        | true =>
          by_cases h4 : f.content.length > MAX_FILE_SIZE
          · rw [convert_pdf_tooLarge env files f hL h2 h3 h4]; rfl
          · cases h5 : env.converter f.content with
            | ok bs =>
              rw [convert_pdf_convOk env files f bs hL h2 h3 h4 h5,
                runCleanup_ok env hp hd]
            | error msg =>
              rw [convert_pdf_convError env files f msg hL h2 h3 h4 h5,
                runCleanup_ok env hp hd]

/-! ### Claim theorems -/

/-- C1: for every POST request in which both temporary files (the pdf staging
file and the docx result file) were created, and in which the unlink calls
themselves behave normally, both files are deleted before the handler
returns, on every exit path: conversion success, conversion failure, and any
error raised after staging; no temporary file created during the request
remains on disk after the request completes. -/
theorem C1_temp_files_cleaned (env : Env) (req : Request)
    (hp : env.unlinkPdfFails = false) (hd : env.unlinkDocxFails = false)
    (hboth : (convert_pdf env req).pdfCreated = true ∧
      (convert_pdf env req).docxCreated = true) :
    (convert_pdf env req).fs.pdfExists = false ∧
    (convert_pdf env req).fs.docxExists = false := by
  have h := fs_clean env req hp hd
  exact ⟨by rw [h], by rw [h]⟩

/-- Witness for C1: a valid small request under the succeeding environment
stages both files and leaves none on disk. -/
theorem C1_witness :
    (convert_pdf envOk reqSmall).fs.pdfExists = false ∧
    (convert_pdf envOk reqSmall).fs.docxExists = false :=
  C1_temp_files_cleaned envOk reqSmall rfl rfl ⟨by decide, by decide⟩

/-- C2: the four validation checks run in the fixed order file-field present,
filename non-empty, extension allowed, size within limit, short-circuiting on
the first failure; every validation failure yields an HTTP 400 JSON error
before any temporary file is created and before the converter is invoked. -/
theorem C2_validation_order (env : Env) (files : List (String × Upload)) :
    (files.lookup ("file") = none →
      convert_pdf env { method := Method.POST, files := files } =
        plainOutcome (errResp 400 ("No file uploaded"))) ∧
    (∀ f, files.lookup ("file") = some f → f.filename = "" →
      convert_pdf env { method := Method.POST, files := files } =
        plainOutcome (errResp 400 ("No file selected"))) ∧
    (∀ f, files.lookup ("file") = some f → ¬ f.filename = "" →
      allowed_file f.filename = false →
      convert_pdf env { method := Method.POST, files := files } =
        plainOutcome (errResp 400 ("Only PDF files are allowed"))) ∧
    (∀ f, files.lookup ("file") = some f → ¬ f.filename = "" →
      allowed_file f.filename = true → f.content.length > MAX_FILE_SIZE →
      convert_pdf env { method := Method.POST, files := files } =
        plainOutcome (errResp 400 ("File size exceeds 10MB limit"))) :=
  ⟨fun h => convert_pdf_noFile env files h,
   fun f h1 h2 => convert_pdf_emptyName env files f h1 h2,
   fun f h1 h2 h3 => convert_pdf_badExt env files f h1 h2 h3,
   fun f h1 h2 h3 h4 => convert_pdf_tooLarge env files f h1 h2 h3 h4⟩

/-- An upload with an empty filename. -/
def uploadNoName : Upload := { filename := "", content := [1] }

/-- An upload with a non-pdf extension. -/
def uploadTxt : Upload := { filename := "notes.txt", content := [1] }

/-- An upload one byte over the limit. -/
def uploadBig : Upload :=
  { filename := "big.pdf", content := List.replicate (MAX_FILE_SIZE + 1) 0 }

theorem uploadBig_len : uploadBig.content.length = MAX_FILE_SIZE + 1 := by
  show (List.replicate (MAX_FILE_SIZE + 1) (0 : Nat)).length = MAX_FILE_SIZE + 1
  rw [List.length_replicate]

/-- Witness for C2: each of the four validation failures on a concrete
request produces its HTTP 400 outcome with no staging and no conversion. -/
theorem C2_witness :
    (convert_pdf envOk { method := Method.POST, files := [] } =
      plainOutcome (errResp 400 ("No file uploaded"))) ∧
    (convert_pdf envOk { method := Method.POST, files := [("file", uploadNoName)] } =
      plainOutcome (errResp 400 ("No file selected"))) ∧
    (convert_pdf envOk { method := Method.POST, files := [("file", uploadTxt)] } =
      plainOutcome (errResp 400 ("Only PDF files are allowed"))) ∧
    (convert_pdf envOk { method := Method.POST, files := [("file", uploadBig)] } =
      plainOutcome (errResp 400 ("File size exceeds 10MB limit"))) :=
  ⟨(C2_validation_order envOk []).1 rfl,
   (C2_validation_order envOk [("file", uploadNoName)]).2.1 uploadNoName rfl rfl,
   (C2_validation_order envOk [("file", uploadTxt)]).2.2.1 uploadTxt rfl
     (by decide) (by decide),
   (C2_validation_order envOk [("file", uploadBig)]).2.2.2 uploadBig rfl
     (by decide) (by decide)
     (by rw [gt_iff_lt, uploadBig_len]; exact Nat.lt_succ_self MAX_FILE_SIZE)⟩

/-- C3: when the converter raises, the response is HTTP 500 with JSON body
success false and an error message containing the underlying error text; no
docx bytes are emitted in that response and the converter ran exactly once. -/
theorem C3_converter_error_500 (env : Env) (files : List (String × Upload))
    (f : Upload) (msg : String)
    (h1 : files.lookup ("file") = some f) (h2 : ¬ f.filename = "")
    (h3 : allowed_file f.filename = true) (h4 : ¬ f.content.length > MAX_FILE_SIZE)
    (h5 : env.converter f.content = ConvResult.error msg) :
    (convert_pdf env { method := Method.POST, files := files }).response =
      errResp 500 ("Conversion failed: " ++ msg) ∧
    (∀ b n m, (convert_pdf env { method := Method.POST, files := files }).response.body ≠
      Body.fileAttachment b n m) ∧
    (convert_pdf env { method := Method.POST, files := files }).converterCalls = 1 ∧
    (∃ pre post, ("Conversion failed: " ++ msg) = pre ++ (msg ++ post)) := by
  rw [convert_pdf_convError env files f msg h1 h2 h3 h4 h5]
  refine ⟨rfl, ?_, rfl, ("Conversion failed: "), (""), by simp⟩
  intro b n m
  simp [errResp]

/-- Witness for C3: the raising converter on a concrete valid request. -/
theorem C3_witness :
    (convert_pdf envErr { method := Method.POST, files := [("file", uploadSmall)] }).response =
      errResp 500 ("Conversion failed: " ++ "boom") ∧
    (∀ b n m,
      (convert_pdf envErr { method := Method.POST, files := [("file", uploadSmall)] }).response.body ≠
        Body.fileAttachment b n m) ∧
    (convert_pdf envErr { method := Method.POST, files := [("file", uploadSmall)] }).converterCalls = 1 ∧
    (∃ pre post, ("Conversion failed: " ++ "boom") = pre ++ ("boom" ++ post)) :=
  C3_converter_error_500 envErr [("file", uploadSmall)] uploadSmall ("boom")
    rfl (by decide) (by decide) (by decide) rfl

/-- C4: past the earlier checks, the size check fails with the HTTP 400
too-large error exactly when the byte length is strictly greater than
10 * 1024 * 1024, and a length of exactly 10 * 1024 * 1024 passes on to the
converter. -/
theorem C4_size_limit_boundary (env : Env) (files : List (String × Upload))
    (f : Upload)
    (h1 : files.lookup ("file") = some f) (h2 : ¬ f.filename = "")
    (h3 : allowed_file f.filename = true) :
    ((convert_pdf env { method := Method.POST, files := files }).response =
        errResp 400 ("File size exceeds 10MB limit") ↔
      f.content.length > 10 * 1024 * 1024) ∧
    (f.content.length = 10 * 1024 * 1024 →
      (convert_pdf env { method := Method.POST, files := files }).converterCalls = 1) := by
  have hmax : MAX_FILE_SIZE = 10 * 1024 * 1024 := rfl
  by_cases h4 : f.content.length > MAX_FILE_SIZE
  · constructor
    · exact iff_of_true
        (by rw [convert_pdf_tooLarge env files f h1 h2 h3 h4]; rfl) (hmax ▸ h4)
    · intro heq
      rw [hmax, heq] at h4
      exact absurd h4 (lt_irrefl _)
  · constructor
    · apply iff_of_false
      · intro hresp
        cases h5 : env.converter f.content with
        | ok bs =>
          rw [convert_pdf_convOk env files f bs h1 h2 h3 h4 h5] at hresp
          simp [errResp] at hresp
        | error msg =>
          rw [convert_pdf_convError env files f msg h1 h2 h3 h4 h5] at hresp
          simp [errResp] at hresp
      · exact hmax ▸ h4
    · intro _
      cases h5 : env.converter f.content with
      | ok bs => rw [convert_pdf_convOk env files f bs h1 h2 h3 h4 h5]
      | error msg => rw [convert_pdf_convError env files f msg h1 h2 h3 h4 h5]

/-- An upload of exactly the maximum admissible size. -/
def uploadExact : Upload :=
  { filename := "doc.pdf", content := List.replicate (10 * 1024 * 1024) 0 }

theorem uploadExact_len : uploadExact.content.length = 10 * 1024 * 1024 := by
  show (List.replicate (10 * 1024 * 1024) (0 : Nat)).length = 10 * 1024 * 1024
  rw [List.length_replicate]

/-- Witness for C4: an upload of exactly 10 * 1024 * 1024 bytes is not
rejected as too large and reaches the converter. -/
theorem C4_witness :
    (¬ (convert_pdf envOk { method := Method.POST, files := [("file", uploadExact)] }).response =
      errResp 400 ("File size exceeds 10MB limit")) ∧
    (convert_pdf envOk { method := Method.POST, files := [("file", uploadExact)] }).converterCalls = 1 := by
  have h := C4_size_limit_boundary envOk [("file", uploadExact)] uploadExact
    rfl (by decide) (by decide)
  constructor
  · intro hresp
    have hgt := h.1.mp hresp
    rw [gt_iff_lt, uploadExact_len] at hgt
    exact absurd hgt (lt_irrefl _)
  · exact h.2 uploadExact_len

/-- C5: for every non-empty filename the type check passes exactly when the
substring after the last dot, lowercased, equals pdf, and a filename failing
the check yields the HTTP 400 unsupported-type error. -/
theorem C5_extension_check (fn : String) (hne : ¬ fn = "") :
    allowed_file fn = specExtensionCheck fn ∧
    (∀ (env : Env) (files : List (String × Upload)) (f : Upload),
      files.lookup ("file") = some f → f.filename = fn → allowed_file fn = false →
      (convert_pdf env { method := Method.POST, files := files }).response =
        errResp 400 ("Only PDF files are allowed")) := by
  refine ⟨allowed_file_eq_spec fn, ?_⟩
  intro env files f h1 hf h3
  have h2 : ¬ f.filename = "" := by rw [hf]; exact hne
  have h3f : allowed_file f.filename = false := by rw [hf]; exact h3
  rw [convert_pdf_badExt env files f h1 h2 h3f]
  rfl

/-- Witness for C5: the check agrees with the spec wording on a concrete
name, and a txt upload is rejected with the unsupported-type error. -/
theorem C5_witness :
    allowed_file ("notes.txt") = specExtensionCheck ("notes.txt") ∧
    (convert_pdf envOk { method := Method.POST, files := [("file", uploadTxt)] }).response =
      errResp 400 ("Only PDF files are allowed") :=
  ⟨(C5_extension_check ("notes.txt") (by decide)).1,
   (C5_extension_check ("notes.txt") (by decide)).2 envOk
     [("file", uploadTxt)] uploadTxt rfl rfl (by decide)⟩

/-- C6: on a valid upload whose conversion succeeds, the response is HTTP 200
carrying the converted docx bytes as an attachment whose name is the
sanitized original filename minus its extension plus the docx suffix, with
the docx mimetype and the permissive cross-origin header. -/
theorem C6_success_attachment (env : Env) (files : List (String × Upload))
    (f : Upload) (bs : List Nat)
    (h1 : files.lookup ("file") = some f) (h2 : ¬ f.filename = "")
    (h3 : allowed_file f.filename = true) (h4 : ¬ f.content.length > MAX_FILE_SIZE)
    (h5 : env.converter f.content = ConvResult.ok bs) :
    (convert_pdf env { method := Method.POST, files := files }).response =
      { status := 200
        headers := [("Access-Control-Allow-Origin", "*")]
        body := Body.fileAttachment bs
          ((splitext (secure_filename f.filename)).1 ++ ".docx") mimetypeDocx } := by
  rw [convert_pdf_convOk env files f bs h1 h2 h3 h4 h5]

/-- Witness for C6: the upload named Report.PDF produces the attachment named
Report.docx. -/
theorem C6_witness :
    (convert_pdf envOk { method := Method.POST, files := [("file", uploadReport)] }).response =
      { status := 200
        headers := [("Access-Control-Allow-Origin", "*")]
        body := Body.fileAttachment [7, 7] ("Report.docx") mimetypeDocx } := by
  have h := C6_success_attachment envOk [("file", uploadReport)] uploadReport [7, 7]
    rfl (by decide) (by decide) (by decide) rfl
  rw [h]
  rfl

/-- C7 counterexample: the route path registered by the decorator is not
/convert. -/
theorem C7_route_path_counterexample : ¬ (routePath = "/convert") := by decide

/-- C7 amended: the conversion endpoint is exposed at path /api/convert; a
POST there with a multipart form field named file containing one file is
accepted by the handler, which never answers it with the missing-file
error. -/
theorem C7_route_path_amended :
    routePath = "/api/convert" ∧ routeMethods.contains ("POST") = true ∧
    (∀ (env : Env) (f : Upload),
      (convert_pdf env { method := Method.POST, files := [("file", f)] }).response ≠
        errResp 400 ("No file uploaded")) := by
  refine ⟨rfl, rfl, ?_⟩
  intro env f hresp
  have h1 : ([("file", f)] : List (String × Upload)).lookup ("file") = some f := rfl
  by_cases h2 : f.filename = ""
  · rw [convert_pdf_emptyName env _ f h1 h2] at hresp
    exact absurd hresp (by decide)
  · cases h3 : allowed_file f.filename with
    | false =>
      rw [convert_pdf_badExt env _ f h1 h2 h3] at hresp
      exact absurd hresp (by decide)
    | true =>
      by_cases h4 : f.content.length > MAX_FILE_SIZE
      · rw [convert_pdf_tooLarge env _ f h1 h2 h3 h4] at hresp
        exact absurd hresp (by decide)
      · cases h5 : env.converter f.content with
        | ok bs =>
          rw [convert_pdf_convOk env _ f bs h1 h2 h3 h4 h5] at hresp
          simp [errResp] at hresp
        | error msg =>
          rw [convert_pdf_convError env _ f msg h1 h2 h3 h4 h5] at hresp
          simp [errResp] at hresp

/-- Witness for the amended C7: a concrete POST with the file field is not
answered with the missing-file error. -/
theorem C7_witness :
    (convert_pdf envOk { method := Method.POST, files := [("file", uploadSmall)] }).response ≠
      errResp 400 ("No file uploaded") :=
  C7_route_path_amended.2.2 envOk uploadSmall

/-- C8: an OPTIONS request returns immediately with the acknowledgment
carrying the three CORS headers, performs no validation (the outcome ignores
the form fields) and no filesystem side effects. -/
theorem C8_options_no_side_effects (env : Env) (req : Request)
    (h : req.method = Method.OPTIONS) :
    (convert_pdf env req).response = optionsResponse ∧
    optionsResponse.status = 200 ∧
    optionsResponse.headers =
      [("Access-Control-Allow-Origin", "*"),
       ("Access-Control-Allow-Headers", "Content-Type"),
       ("Access-Control-Allow-Methods", "POST")] ∧
    (convert_pdf env req).pdfCreated = false ∧
    (convert_pdf env req).docxCreated = false ∧
    (convert_pdf env req).fs = { pdfExists := false, docxExists := false } ∧
    (convert_pdf env req).converterCalls = 0 ∧
    (∀ files2, convert_pdf env { method := Method.OPTIONS, files := files2 } =
      convert_pdf env req) := by
  rcases req with ⟨m, files⟩
  cases h
  exact ⟨rfl, rfl, rfl, rfl, rfl, rfl, rfl, fun _ => rfl⟩

/-- Witness for C8: a concrete OPTIONS request. -/
theorem C8_witness :
    (convert_pdf envOk { method := Method.OPTIONS, files := [] }).response = optionsResponse ∧
    (convert_pdf envOk { method := Method.OPTIONS, files := [] }).pdfCreated = false ∧
    (convert_pdf envOk { method := Method.OPTIONS, files := [] }).docxCreated = false ∧
    (convert_pdf envOk { method := Method.OPTIONS, files := [] }).converterCalls = 0 := by
  have h := C8_options_no_side_effects envOk { method := Method.OPTIONS, files := [] } rfl
  exact ⟨h.1, h.2.2.2.1, h.2.2.2.2.1, h.2.2.2.2.2.2.1⟩

/-- The same environment with both unlink calls succeeding: the world in
which the deletions succeed. -/
def cleanEnv (env : Env) : Env :=
  { converter := env.converter, unlinkPdfFails := false, unlinkDocxFails := false }

/-- C9: a raised deletion error during cleanup is caught and logged only; the
HTTP response is identical to the one the request would have produced had
both deletions succeeded. -/
theorem C9_cleanup_error_swallowed (env : Env) (req : Request) :
    ((convert_pdf env req).response = (convert_pdf (cleanEnv env) req).response) ∧
    ((convert_pdf env req).pdfCreated = true → env.unlinkPdfFails = true →
      (convert_pdf env req).cleanupErrorLogged = true) ∧
    ((convert_pdf env req).docxCreated = true → env.unlinkDocxFails = true →
      (convert_pdf env req).cleanupErrorLogged = true) := by
  rcases req with ⟨m, files⟩
  cases m with
  | OPTIONS =>
    refine ⟨rfl, ?_, ?_⟩ <;> (intro h _; simp [convert_pdf, plainOutcome] at h)
  | POST =>
    cases hL : files.lookup ("file") with
    | none =>
      rw [convert_pdf_noFile env files hL, convert_pdf_noFile _ files hL]
      refine ⟨rfl, ?_, ?_⟩ <;> (intro h _; simp [plainOutcome] at h)
    | some f =>
      by_cases h2 : f.filename = ""
      · rw [convert_pdf_emptyName env files f hL h2,
          convert_pdf_emptyName _ files f hL h2]
        refine ⟨rfl, ?_, ?_⟩ <;> (intro h _; simp [plainOutcome] at h)
      · cases h3 : allowed_file f.filename with
        | false =>
          rw [convert_pdf_badExt env files f hL h2 h3,
            convert_pdf_badExt _ files f hL h2 h3]
          refine ⟨rfl, ?_, ?_⟩ <;> (intro h _; simp [plainOutcome] at h)
        | true =>
          by_cases h4 : f.content.length > MAX_FILE_SIZE
          · rw [convert_pdf_tooLarge env files f hL h2 h3 h4,
              convert_pdf_tooLarge _ files f hL h2 h3 h4]
            refine ⟨rfl, ?_, ?_⟩ <;> (intro h _; simp [plainOutcome] at h)
          · cases h5 : env.converter f.content with
            | ok bs =>
              have h5b : (cleanEnv env).converter f.content = ConvResult.ok bs := h5
              rw [convert_pdf_convOk env files f bs hL h2 h3 h4 h5,
                convert_pdf_convOk _ files f bs hL h2 h3 h4 h5b]
              refine ⟨rfl, ?_, ?_⟩
              · intro _ hp
                simp [runCleanup, hp]
              · intro _ hd
                by_cases hp : env.unlinkPdfFails <;> simp [runCleanup, hp, hd]
            | error msg =>
              have h5b : (cleanEnv env).converter f.content = ConvResult.error msg := h5
              rw [convert_pdf_convError env files f msg hL h2 h3 h4 h5,
                convert_pdf_convError _ files f msg hL h2 h3 h4 h5b]
              refine ⟨rfl, ?_, ?_⟩
              · intro _ hp
                simp [runCleanup, hp]
              · intro _ hd
                by_cases hp : env.unlinkPdfFails <;> simp [runCleanup, hp, hd]

/-- Witness for C9: with a pdf unlink that raises, the response matches the
one of the fully succeeding environment and the error is logged. -/
theorem C9_witness :
    ((convert_pdf envUnlinkFail reqSmall).response =
      (convert_pdf (cleanEnv envUnlinkFail) reqSmall).response) ∧
    (convert_pdf envUnlinkFail reqSmall).cleanupErrorLogged = true :=
  ⟨(C9_cleanup_error_swallowed envUnlinkFail reqSmall).1,
   (C9_cleanup_error_swallowed envUnlinkFail reqSmall).2.1 (by decide) rfl⟩

/-- C10: a non-empty filename containing no dot at all is rejected with the
HTTP 400 unsupported-type error, not with either missing-file error. -/
theorem C10_dotless_unsupported (env : Env) (files : List (String × Upload))
    (f : Upload)
    (h1 : files.lookup ("file") = some f) (h2 : ¬ f.filename = "")
    (h3 : f.filename.data.contains '.' = false) :
    (convert_pdf env { method := Method.POST, files := files }).response =
      errResp 400 ("Only PDF files are allowed") ∧
    (convert_pdf env { method := Method.POST, files := files }).response ≠
      errResp 400 ("No file uploaded") ∧
    (convert_pdf env { method := Method.POST, files := files }).response ≠
      errResp 400 ("No file selected") := by
  have hext : allowed_file f.filename = false := allowed_file_false_of_no_dot _ h3
  rw [convert_pdf_badExt env files f h1 h2 hext]
  exact ⟨rfl, by decide, by decide⟩

/-- An upload whose filename has no dot. -/
def uploadNoDot : Upload := { filename := "pdf", content := [1] }

/-- Witness for C10: the dotless filename pdf is rejected as unsupported. -/
theorem C10_witness :
    (convert_pdf envOk { method := Method.POST, files := [("file", uploadNoDot)] }).response =
      errResp 400 ("Only PDF files are allowed") ∧
    (convert_pdf envOk { method := Method.POST, files := [("file", uploadNoDot)] }).response ≠
      errResp 400 ("No file uploaded") ∧
    (convert_pdf envOk { method := Method.POST, files := [("file", uploadNoDot)] }).response ≠
      errResp 400 ("No file selected") :=
  C10_dotless_unsupported envOk [("file", uploadNoDot)] uploadNoDot rfl
    (by decide) (by decide)

end PdfToWord
